import Mathlib

/-!
Verification of the ffiec-data-transformation configuration / session layer.

The Python sources under `src/` are shallowly embedded below:
  * `src/containers/config.py`  — `ConfigContainer` (lazy cached file dictionaries,
    twelve category accessor methods);
  * `src/containers/session.py` — `SessionContainer` (engine singletons, session
    factories, scoped async session generators);
  * `src/containers/schema.py`  — `SchemaContainer.create_transformation_schema`;
  * `src/database.py`           — `intit_engine` and `init_table_schema`.

Python mutation is modelled by explicit state passing.  Object identity (the
`is` relation on engines, factories and sessions) is modelled by a freshness
allocator `next_oid : Nat`: every library-level constructor call hands out the
current counter value as the object id and bumps the counter, so two distinct
constructor calls always produce objects with distinct ids.

The repository modules `src/handlers` (`ConfigHandler`, `SchemaHandler`) and
`src/constants` are not among the given sources; where a claim depends on
them they are modelled from the spec, and each such definition carries a doc
comment starting `Modelled from the spec:`.
-/

/-! ## File dictionaries (resolver output) -/

/-- A file mapping: logical file name to full file path, as returned by the
directory-resolution collaborator (`ConfigHandler.create_file_dict`).
Modelled as an association list. -/
abbrev FileDict := List (String × String)

/-- Key lookup in a file mapping (Python `file_dict[name]` before the raise). -/
def findPath : FileDict → String → Option String
  | [], _ => none
  | (k, v) :: rest, n => if k = n then some v else findPath rest n

/-- Modelled from the spec: the resolved configuration entry produced by
`ConfigHandler.create_config` (the repository's `FFEICConfig` / `ScriptsConfig`
objects from `src/constants/objects`, which are not among the given sources).
Per spec §3 an entry "pairs a declared logical name with its resolved file
path"; the category-specific metadata carried alongside is irrelevant to the
claims and is not modelled. -/
structure ResolvedConfig where
  name : String
  path : String
deriving DecidableEq

/-- Modelled from the spec: `ConfigHandler.create_config` (the `src/handlers`
module is not among the given sources).  Per spec §2 it takes the declared
entries of one category and a file-name-to-path mapping and "produces a list
of fully-resolved configuration objects"; per spec §3 "lookups for names
absent from the mapping must fail explicitly rather than silently proceed",
modelled as an `Except` error carrying the first missing name (Python
`KeyError`). -/
def create_config : List String → FileDict → Except String (List ResolvedConfig)
  | [], _ => .ok []
  | n :: rest, fd =>
    match findPath fd n with
    | none => .error n
    | some p =>
      match create_config rest fd with
      | .error m => .error m
      | .ok l => .ok (⟨n, p⟩ :: l)

/-- `true` exactly when `create_config` failed (raised a lookup error). -/
def isError : Except String (List ResolvedConfig) → Bool
  | .error _ => true
  | .ok _ => false

/-! ## Constants (declared category entry sets and directories)

Modelled from the spec: the `src/constants` modules `imports`, `script` and
`directory` are not among the given sources.  Per spec §3 a category
declaration is "an ordered sequence of logical names ... static, defined in
configuration constants; immutable at run time", so each constant is an
abstract field of a record over which all theorems quantify. -/

/-- Modelled from the spec: the `imports` constants module — one declared
entry set per import category (spec §6). -/
structure ImportsConsts where
  BHCF : List String
  ATTRIBUTES : List String
  RELATIONSHIPS : List String
  TRANSFORMATIONS : List String
  GOV_IDENTIFIERS : List String

/-- Modelled from the spec: the `script` constants module — one declared
entry set per script category (spec §6). -/
structure ScriptConsts where
  PREFLIGHT : List String
  DEPENDENCIES : List String
  ATTRIBUTES : List String
  RELATIONSHIPS : List String
  TRANSFORMATIONS : List String
  GOV_IDENTIFIERS : List String
  CALL_REPORTS : List String

/-- Modelled from the spec: the `directory` constants module — the
default import and script directories used as the default arguments of
`get_import_file_dict` / `get_script_file_dict`. -/
structure DirectoryConsts where
  IMPORT : String
  SCRIPTS : String

/-- All configuration constants imported by `src/containers/config.py`. -/
structure Constants where
  directory : DirectoryConsts
  imports : ImportsConsts
  script : ScriptConsts

/-- A concrete constants record (all entry sets empty) used only to state
closed counterexamples; the accessor count does not depend on it. -/
def emptyConsts : Constants :=
  ⟨⟨"import_dir", "script_dir"⟩, ⟨[], [], [], [], []⟩, ⟨[], [], [], [], [], [], []⟩⟩

/-! ## ConfigContainer (src/containers/config.py) -/

/-- The class-level attributes of `ConfigContainer` (config.py lines 35-36):
`_import_file_dict` and `_script_file_dict`, both initialised to `None` at the
class.  The source never assigns them at class level, but Python attribute
lookup falls back to them while the instance has not written its own. -/
structure ClassAttrs where
  import_default : Option FileDict
  script_default : Option FileDict

/-- The class attributes as the source leaves them: both `None`. -/
def defaultClassAttrs : ClassAttrs := ⟨none, none⟩

/-- One `ConfigContainer` instance: the injected handler (its
`create_file_dict` resolver, a pure function per spec §2) and the two
instance-level cache attributes, absent until the instance assigns them. -/
structure ConfigContainer where
  config_handler : String → FileDict
  import_attr : Option FileDict
  script_attr : Option FileDict

/-- `ConfigContainer.__init__`: stores the handler; no cache attribute is
written, so attribute lookup still reaches the class-level `None`s. -/
def mkConfigContainer (h : String → FileDict) : ConfigContainer := ⟨h, none, none⟩

/-- `ConfigContainer.get_import_file_dict` (config.py lines 48-54).
If the attribute (instance value, else class default) is `None`, calls the
handler's `create_file_dict` with the given directory and assigns the result
to `self._import_file_dict` (an instance attribute); returns the attribute.
The third component logs each directory passed to the resolver during the
call, so `[]` means the resolver was not invoked. -/
def get_import_file_dict (cls : ClassAttrs) (c : ConfigContainer) (dir : String) :
    FileDict × ConfigContainer × List String :=
  match c.import_attr.or cls.import_default with
  | some d => (d, c, [])
  | none =>
    let d := c.config_handler dir
    (d, { c with import_attr := some d }, [dir])

/-- `ConfigContainer.get_script_file_dict` (config.py lines 56-64), same
shape over the script attribute. -/
def get_script_file_dict (cls : ClassAttrs) (c : ConfigContainer) (dir : String) :
    FileDict × ConfigContainer × List String :=
  match c.script_attr.or cls.script_default with
  | some d => (d, c, [])
  | none =>
    let d := c.config_handler dir
    (d, { c with script_attr := some d }, [dir])

/-- The result type of a category accessor: the resolved list (or lookup
error), the post-call instance state, and the resolver-invocation log. -/
abbrev AccessorResult := Except String (List ResolvedConfig) × ConfigContainer × List String

/-- `ConfigContainer.bhcf_imports` (config.py lines 66-75): delegates to
`create_config` with `imports.BHCF` and `self.get_import_file_dict()` (default
directory argument `directory.IMPORT`). -/
def bhcf_imports (K : Constants) (cls : ClassAttrs) (c : ConfigContainer) : AccessorResult :=
  let r := get_import_file_dict cls c K.directory.IMPORT
  (create_config K.imports.BHCF r.1, r.2.1, r.2.2)

/-- `ConfigContainer.attribute_imports` (config.py lines 77-86). -/
def attribute_imports (K : Constants) (cls : ClassAttrs) (c : ConfigContainer) : AccessorResult :=
  let r := get_import_file_dict cls c K.directory.IMPORT
  (create_config K.imports.ATTRIBUTES r.1, r.2.1, r.2.2)

/-- `ConfigContainer.relationship_imports` (config.py lines 88-97). -/
def relationship_imports (K : Constants) (cls : ClassAttrs) (c : ConfigContainer) : AccessorResult :=
  let r := get_import_file_dict cls c K.directory.IMPORT
  (create_config K.imports.RELATIONSHIPS r.1, r.2.1, r.2.2)

/-- `ConfigContainer.transformation_imports` (config.py lines 99-108). -/
def transformation_imports (K : Constants) (cls : ClassAttrs) (c : ConfigContainer) : AccessorResult :=
  let r := get_import_file_dict cls c K.directory.IMPORT
  (create_config K.imports.TRANSFORMATIONS r.1, r.2.1, r.2.2)

/-- `ConfigContainer.gov_identifier_imports` (config.py lines 110-119). -/
def gov_identifier_imports (K : Constants) (cls : ClassAttrs) (c : ConfigContainer) : AccessorResult :=
  let r := get_import_file_dict cls c K.directory.IMPORT
  (create_config K.imports.GOV_IDENTIFIERS r.1, r.2.1, r.2.2)

/-- `ConfigContainer.preflight_scripts` (config.py lines 121-131): delegates
to `create_config` with `script.PREFLIGHT` and `self.get_script_file_dict()`
(default directory argument `directory.SCRIPTS`). -/
def preflight_scripts (K : Constants) (cls : ClassAttrs) (c : ConfigContainer) : AccessorResult :=
  let r := get_script_file_dict cls c K.directory.SCRIPTS
  (create_config K.script.PREFLIGHT r.1, r.2.1, r.2.2)

/-- `ConfigContainer.dependency_scripts` (config.py lines 133-143). -/
def dependency_scripts (K : Constants) (cls : ClassAttrs) (c : ConfigContainer) : AccessorResult :=
  let r := get_script_file_dict cls c K.directory.SCRIPTS
  (create_config K.script.DEPENDENCIES r.1, r.2.1, r.2.2)

/-- `ConfigContainer.attribute_scripts` (config.py lines 145-155). -/
def attribute_scripts (K : Constants) (cls : ClassAttrs) (c : ConfigContainer) : AccessorResult :=
  let r := get_script_file_dict cls c K.directory.SCRIPTS
  (create_config K.script.ATTRIBUTES r.1, r.2.1, r.2.2)

/-- `ConfigContainer.relationship_scripts` (config.py lines 157-167). -/
def relationship_scripts (K : Constants) (cls : ClassAttrs) (c : ConfigContainer) : AccessorResult :=
  let r := get_script_file_dict cls c K.directory.SCRIPTS
  (create_config K.script.RELATIONSHIPS r.1, r.2.1, r.2.2)

/-- `ConfigContainer.transformation_scripts` (config.py lines 169-179). -/
def transformation_scripts (K : Constants) (cls : ClassAttrs) (c : ConfigContainer) : AccessorResult :=
  let r := get_script_file_dict cls c K.directory.SCRIPTS
  (create_config K.script.TRANSFORMATIONS r.1, r.2.1, r.2.2)

/-- `ConfigContainer.gov_identifier_scripts` (config.py lines 181-191). -/
def gov_identifier_scripts (K : Constants) (cls : ClassAttrs) (c : ConfigContainer) : AccessorResult :=
  let r := get_script_file_dict cls c K.directory.SCRIPTS
  (create_config K.script.GOV_IDENTIFIERS r.1, r.2.1, r.2.2)

/-- `ConfigContainer.call_report_scripts` (config.py lines 193-203). -/
def call_report_scripts (K : Constants) (cls : ClassAttrs) (c : ConfigContainer) : AccessorResult :=
  let r := get_script_file_dict cls c K.directory.SCRIPTS
  (create_config K.script.CALL_REPORTS r.1, r.2.1, r.2.2)

/-- The category accessor methods `ConfigContainer` exposes, in source order
(config.py lines 66-203).  These are all the public methods of the class
other than the two `get_*_file_dict` helpers. -/
def categoryAccessors (K : Constants) :
    List (ClassAttrs → ConfigContainer → AccessorResult) :=
  [bhcf_imports K, attribute_imports K, relationship_imports K,
   transformation_imports K, gov_identifier_imports K,
   preflight_scripts K, dependency_scripts K, attribute_scripts K,
   relationship_scripts K, transformation_scripts K, gov_identifier_scripts K,
   call_report_scripts K]

/-! ## SessionContainer (src/containers/session.py) -/

/-- A SQLAlchemy engine handle as the claims see it: its object identity,
the URL it was constructed with, and its `echo` flag.  The `AsyncEngine` /
`Engine` distinction is carried by which constructor and cache slot is used
(the async calls pass `echo=True`, the sync ones `echo=False`). -/
structure Engine where
  oid : Nat
  url : String
  echo : Bool
deriving DecidableEq

/-- The external library constructor (`create_engine` /
`create_async_engine`): builds a brand-new engine object from the URL and the
`echo` flag; the caller supplies the fresh object id. -/
def sqlalchemy_create_engine (url : String) (echo : Bool) (oid : Nat) : Engine :=
  ⟨oid, url, echo⟩

/-- The class-level mutable state of `SessionContainer` (session.py lines
47-49): the two singleton engine caches and the connection string constant,
plus the freshness allocator for object identities. -/
structure SessionState where
  postgres_engine : Option Engine
  postgres_async_engine : Option Engine
  postgres_connection : String
  next_oid : Nat

/-- The state at class creation: both caches `None`,
`_postgres_connection = connection.POSTGRES_CONNECTION`. -/
def initSessionState (conn : String) : SessionState :=
  ⟨none, none, conn, 0⟩

/-- `SessionContainer.create_postgres_engine` (session.py lines 51-61):
`create_engine(url=cls._postgres_connection, echo=False)` — a fresh engine
every call, no cache access. -/
def create_postgres_engine (s : SessionState) : Engine × SessionState :=
  let e := sqlalchemy_create_engine s.postgres_connection false s.next_oid
  (e, { s with next_oid := s.next_oid + 1 })

/-- `SessionContainer.create_postgres_async_engine` (session.py lines 63-73):
`create_async_engine(cls._postgres_connection, echo=True)` — a fresh async
engine every call, no cache access. -/
def create_postgres_async_engine (s : SessionState) : Engine × SessionState :=
  let e := sqlalchemy_create_engine s.postgres_connection true s.next_oid
  (e, { s with next_oid := s.next_oid + 1 })

/-- `SessionContainer.get_postgres_engine` (session.py lines 75-90): if
`cls._postgres_engine is None`, create and cache an engine; return the
cached attribute. -/
def get_postgres_engine (s : SessionState) : Engine × SessionState :=
  match s.postgres_engine with
  | some e => (e, s)
  | none =>
    let e := sqlalchemy_create_engine s.postgres_connection false s.next_oid
    (e, { s with postgres_engine := some e, next_oid := s.next_oid + 1 })

/-- `SessionContainer.get_postgres_async_engine` (session.py lines 92-107):
same shape over `cls._postgres_async_engine`, with `echo=True`. -/
def get_postgres_async_engine (s : SessionState) : Engine × SessionState :=
  match s.postgres_async_engine with
  | some e => (e, s)
  | none =>
    let e := sqlalchemy_create_engine s.postgres_connection true s.next_oid
    (e, { s with postgres_async_engine := some e, next_oid := s.next_oid + 1 })

/-- An `async_sessionmaker` object: its identity, the engine it is bound to,
and the two configuration flags passed at construction. -/
structure SessionFactory where
  oid : Nat
  bind : Engine
  autoflush : Bool
  expire_on_commit : Bool
deriving DecidableEq

/-- The external library constructor `async_sessionmaker(bind=..,
autoflush=.., expire_on_commit=..)`; the caller supplies the fresh object
id. -/
def sqlalchemy_async_sessionmaker (bind : Engine) (autoflush expire : Bool) (oid : Nat) :
    SessionFactory :=
  ⟨oid, bind, autoflush, expire⟩

/-- `SessionContainer.create_postgres_async_session_factory` (session.py
lines 109-123): `async_sessionmaker(bind=cls.create_postgres_async_engine(),
autoflush=False, expire_on_commit=False)`. -/
def create_postgres_async_session_factory (s : SessionState) : SessionFactory × SessionState :=
  let r := create_postgres_async_engine s
  let s1 := r.2
  let f := sqlalchemy_async_sessionmaker r.1 false false s1.next_oid
  (f, { s1 with next_oid := s1.next_oid + 1 })

/-- `SessionContainer.get_postgres_async_session_factory` (session.py lines
125-139): `async_sessionmaker(bind=cls.get_postgres_async_engine(),
autoflush=False, expire_on_commit=False)`. -/
def get_postgres_async_session_factory (s : SessionState) : SessionFactory × SessionState :=
  let r := get_postgres_async_engine s
  let s1 := r.2
  let f := sqlalchemy_async_sessionmaker r.1 false false s1.next_oid
  (f, { s1 with next_oid := s1.next_oid + 1 })

/-! ## Scoped session generators (session.py lines 141-189)

The async generators are embedded as trace semantics: running a generator
against a consumer that exits its scope in a given way (normal completion,
an exception raised inside the scope, or cancellation of the scope) yields
the ordered list of session-lifecycle events.  The `async with
LocalAsyncSession() as db` block opens the session; `try: yield db` hands it
to the consumer once; the `finally: await db.close()` runs on every exit
kind, and the context-manager exit closes the session again. -/

/-- How the consuming scope exits while holding the yielded session. -/
inductive ExitKind where
  | normal
  | raised
  | cancelled
deriving DecidableEq

/-- Session-lifecycle events observable in a generator run.  `bodyExit k`
marks the consumer's scope ending (in whichever way `k`) between the yield
and the close steps. -/
inductive SessionEv where
  | opened (sid : Nat)
  | yielded (sid : Nat)
  | bodyExit (k : ExitKind)
  | closed (sid : Nat)
deriving DecidableEq

/-- `true` exactly on `yielded` events. -/
def isYieldEv : SessionEv → Bool
  | .yielded _ => true
  | _ => false

/-- Number of sessions yielded in a trace. -/
def countYields (tr : List SessionEv) : Nat := (tr.filter isYieldEv).length

/-- `SessionContainer.get_postgres_async_db` (session.py lines 141-163) run
against a consumer exiting with `k`: builds a session factory via
`create_postgres_async_session_factory`, opens one session from it, yields
it, and closes it in the `finally` and again at context-manager exit.
Returns the event trace, the yielded session's id, the factory used, and
the final class state. -/
def run_get_postgres_async_db (s : SessionState) (k : ExitKind) :
    List SessionEv × Nat × SessionFactory × SessionState :=
  let r := create_postgres_async_session_factory s
  let sid := r.2.next_oid
  let s2 := { r.2 with next_oid := sid + 1 }
  ([.opened sid, .yielded sid, .bodyExit k, .closed sid, .closed sid], sid, r.1, s2)

/-- `SessionContainer.get_postgres_async_shared_db` (session.py lines
165-189): identical shape, but the factory comes from
`get_postgres_async_session_factory` (singleton engine). -/
def run_get_postgres_async_shared_db (s : SessionState) (k : ExitKind) :
    List SessionEv × Nat × SessionFactory × SessionState :=
  let r := get_postgres_async_session_factory s
  let sid := r.2.next_oid
  let s2 := { r.2 with next_oid := sid + 1 }
  ([.opened sid, .yielded sid, .bodyExit k, .closed sid, .closed sid], sid, r.1, s2)

/-! ## database.py -/

/-- The `settings` object consumed by `src/database.py`: the six process-wide
connection settings interpolated into the URL f-string. -/
structure Settings where
  db_driver : String
  db_usrnm : String
  db_pwd : String
  db_host : String
  db_port : String
  db_name : String

/-- The connection string built by `intit_engine` (database.py line 8):
`f"{settings.db_driver}://{settings.db_usrnm}:{settings.db_pwd}@{settings.db_host}:{settings.db_port}/{settings.db_name}"`. -/
def connection_string (s : Settings) : String :=
  s.db_driver ++ "://" ++ s.db_usrnm ++ ":" ++ s.db_pwd ++ "@" ++ s.db_host
    ++ ":" ++ s.db_port ++ "/" ++ s.db_name

/-- `intit_engine` (database.py lines 7-9): `create_engine(connection_string,
echo=False)`. -/
def intit_engine (s : Settings) (oid : Nat) : Engine :=
  sqlalchemy_create_engine (connection_string s) false oid

/-- The URL format exactly as the spec words it (spec §6: "driver, user,
password, host, port, database name composed into one URL") — stated
separately from `connection_string` so the two renderings can be compared. -/
def spec_connection_url (driver user password host port dbname : String) : String :=
  driver ++ "://" ++ user ++ ":" ++ password ++ "@" ++ host ++ ":" ++ port ++ "/" ++ dbname

/-- Events issued against the database connection by `init_table_schema`. -/
inductive SqlEv where
  | execStmt (stmt : String)
  | commitTx
deriving DecidableEq

/-- `init_table_schema` (database.py lines 12-24): inside a synchronous
`engine.connect()` block, executes `f"create schema if not exists {schema};"`
and commits. -/
def init_table_schema (schema : String) : List SqlEv :=
  [.execStmt ("create schema if not exists " ++ schema ++ ";"), .commitTx]

/-! ## SchemaContainer (src/containers/schema.py) -/

/-- Modelled from the spec: `SchemaHandler.create_table_schema` (the
`src/handlers` module is not among the given sources).  Per spec §4.2 it
issues the idempotent schema-creation DDL ("create if not exists", §4.2's
rendering) against the supplied synchronous session and commits; the
statement text follows the repository's own in-source rendering of this DDL
(database.py line 21).  The events are issued against the session the
caller supplies. -/
def create_table_schema (schema : String) : List SqlEv :=
  [.execStmt ("create schema if not exists " ++ schema ++ ";"), .commitTx]

/-- `SchemaContainer.create_transformation_schema` (schema.py lines 34-51):
delegates to `SchemaHandler.create_table_schema` with the supplied
synchronous session and the given schema name (the default argument,
`schema.TRANSFORMATIONS`, comes from the absent `src/constants/schema`
module; the claim quantifies over every schema name, so the name is a
parameter here). -/
def create_transformation_schema (schema : String) : List SqlEv :=
  create_table_schema schema

/-! ## Two ConfigContainer instances sharing the class

Every method of `ConfigContainer` reads and assigns only attributes of
`self` (`self._import_file_dict`, `self._script_file_dict`) and never
assigns a class-level attribute, so running a method on one instance maps a
two-instance world by updating that instance alone, with the shared
class-level defaults passed through read-only. -/

/-- A world of two distinct `ConfigContainer` instances (`a` and `b`) over
the shared class-level attributes. -/
structure TwoWorld where
  cls : ClassAttrs
  a : ConfigContainer
  b : ConfigContainer

/-- Run a `ConfigContainer` method with instance `a` as the receiver: the
method's instance-attribute writes land on `a`. -/
def runOnA {α : Type} (op : ClassAttrs → ConfigContainer → α × ConfigContainer × List String)
    (w : TwoWorld) : α × TwoWorld × List String :=
  let r := op w.cls w.a
  (r.1, ⟨w.cls, r.2.1, w.b⟩, r.2.2)

/-- Run a `ConfigContainer` method with instance `b` as the receiver. -/
def runOnB {α : Type} (op : ClassAttrs → ConfigContainer → α × ConfigContainer × List String)
    (w : TwoWorld) : α × TwoWorld × List String :=
  let r := op w.cls w.b
  (r.1, ⟨w.cls, w.a, r.2.1⟩, r.2.2)

/-! ## Concrete values for closed statements -/

/-- A concrete constants record whose every category declares the single
logical name `"a"`. -/
def witnessConsts : Constants :=
  ⟨⟨"idir", "sdir"⟩, ⟨["a"], ["a"], ["a"], ["a"], ["a"]⟩,
   ⟨["a"], ["a"], ["a"], ["a"], ["a"], ["a"], ["a"]⟩⟩

/-- A fresh container whose resolver returns the empty mapping for every
directory. -/
def witnessContainer : ConfigContainer := mkConfigContainer (fun _ => [])

/-! ## Helper lemmas -/

/-- If some declared name is absent from the file mapping, `create_config`
returns a lookup error. -/
theorem create_config_isError_of_missing {configs : List String} {fd : FileDict} {n : String}
    (hmem : n ∈ configs) (hmiss : findPath fd n = none) :
    isError (create_config configs fd) = true := by
  induction configs with
  | nil => cases hmem
  | cons m rest ih =>
    rcases List.mem_cons.mp hmem with rfl | hm
    · simp [create_config, hmiss, isError]
    · cases hfp : findPath fd m with
      | none => simp [create_config, hfp, isError]
      | some p =>
        have hrec := ih hm
        cases hcc : create_config rest fd with
        | error e => simp [create_config, hfp, hcc, isError]
        | ok l => rw [hcc] at hrec; simp [isError] at hrec

/-! ## Claims -/

/-- C1: For every ConfigContainer instance, the first call to
`get_import_file_dict` (resp. `get_script_file_dict`) invokes the
file-resolution collaborator with the directory argument given and stores
the result; every subsequent call on the same instance, with any directory
argument (including a different one), performs no further resolution and
returns the same stored mapping.  The first three conjuncts of each half
state the first call (resolver invoked exactly with `d`, result returned and
cached); the fourth states that a call on the post-call state with any
directory `d2` returns the cached value, leaves the state unchanged (so the
same equation governs every later call), and invokes the resolver not at
all. -/
theorem C1_file_dict_cached_once (h : String → FileDict) (d d2 : String) :
    ((get_import_file_dict defaultClassAttrs (mkConfigContainer h) d).2.2 = [d]
      ∧ (get_import_file_dict defaultClassAttrs (mkConfigContainer h) d).1 = h d
      ∧ (get_import_file_dict defaultClassAttrs (mkConfigContainer h) d).2.1.import_attr = some (h d)
      ∧ get_import_file_dict defaultClassAttrs
            (get_import_file_dict defaultClassAttrs (mkConfigContainer h) d).2.1 d2
          = (h d, (get_import_file_dict defaultClassAttrs (mkConfigContainer h) d).2.1, []))
    ∧ ((get_script_file_dict defaultClassAttrs (mkConfigContainer h) d).2.2 = [d]
      ∧ (get_script_file_dict defaultClassAttrs (mkConfigContainer h) d).1 = h d
      ∧ (get_script_file_dict defaultClassAttrs (mkConfigContainer h) d).2.1.script_attr = some (h d)
      ∧ get_script_file_dict defaultClassAttrs
            (get_script_file_dict defaultClassAttrs (mkConfigContainer h) d).2.1 d2
          = (h d, (get_script_file_dict defaultClassAttrs (mkConfigContainer h) d).2.1, [])) :=
  ⟨⟨rfl, rfl, rfl, rfl⟩, ⟨rfl, rfl, rfl, rfl⟩⟩

/-- C2: Two sequential calls to `get_postgres_engine` (or
`get_postgres_async_engine`) return the same engine instance, the engine
being created and cached on the first call and the cache never overwritten
afterwards; every call to `create_postgres_engine` (or
`create_postgres_async_engine`) constructs a brand-new engine bound to the
fixed connection string, neither reading nor writing the caches, so two
sequential `create_*` calls return distinct instances. -/
theorem C2_engine_singleton_vs_create (conn : String) (s : SessionState) :
    ((get_postgres_engine (initSessionState conn)).2.postgres_engine
        = some (get_postgres_engine (initSessionState conn)).1
      ∧ (get_postgres_engine (initSessionState conn)).1.url = conn
      ∧ (get_postgres_engine s).2.postgres_engine = some (get_postgres_engine s).1
      ∧ get_postgres_engine (get_postgres_engine s).2
          = ((get_postgres_engine s).1, (get_postgres_engine s).2))
    ∧ ((get_postgres_async_engine (initSessionState conn)).2.postgres_async_engine
        = some (get_postgres_async_engine (initSessionState conn)).1
      ∧ (get_postgres_async_engine (initSessionState conn)).1.url = conn
      ∧ (get_postgres_async_engine s).2.postgres_async_engine
          = some (get_postgres_async_engine s).1
      ∧ get_postgres_async_engine (get_postgres_async_engine s).2
          = ((get_postgres_async_engine s).1, (get_postgres_async_engine s).2))
    ∧ ((create_postgres_engine s).1.url = s.postgres_connection
      ∧ (create_postgres_engine s).2.postgres_engine = s.postgres_engine
      ∧ (create_postgres_engine s).2.postgres_async_engine = s.postgres_async_engine
      ∧ (create_postgres_engine s).1
          = (create_postgres_engine
              { s with postgres_engine := none, postgres_async_engine := none }).1
      ∧ (create_postgres_engine s).1 ≠ (create_postgres_engine (create_postgres_engine s).2).1)
    ∧ ((create_postgres_async_engine s).1.url = s.postgres_connection
      ∧ (create_postgres_async_engine s).2.postgres_engine = s.postgres_engine
      ∧ (create_postgres_async_engine s).2.postgres_async_engine = s.postgres_async_engine
      ∧ (create_postgres_async_engine s).1
          = (create_postgres_async_engine
              { s with postgres_engine := none, postgres_async_engine := none }).1
      ∧ (create_postgres_async_engine s).1
          ≠ (create_postgres_async_engine (create_postgres_async_engine s).2).1) := by
  rcases s with ⟨pe, pae, c, n⟩
  refine ⟨⟨rfl, rfl, ?_, ?_⟩, ⟨rfl, rfl, ?_, ?_⟩, ⟨rfl, rfl, rfl, rfl, ?_⟩,
    ⟨rfl, rfl, rfl, rfl, ?_⟩⟩
  · cases pe <;> rfl
  · cases pe <;> rfl
  · cases pae <;> rfl
  · cases pae <;> rfl
  · intro h
    have := congrArg Engine.oid h
    simp [create_postgres_engine, sqlalchemy_create_engine] at this
  · intro h
    have := congrArg Engine.oid h
    simp [create_postgres_async_engine, sqlalchemy_create_engine] at this

/-- C3: Each of `get_postgres_async_db` and `get_postgres_async_shared_db`
yields exactly one session per invocation — from a factory built by
`create_postgres_async_session_factory` (fresh engine) and by
`get_postgres_async_session_factory` (singleton engine) respectively — and
on every exit of the consuming scope (normal completion, an error raised
inside the scope, or cancellation) the session's close step runs before the
generator finishes: the yield of the session occurs in the trace and the
trace's last event closes that same session, leaving it closed. -/
theorem C3_scoped_generators_close_session (s : SessionState) (k : ExitKind) :
    (countYields (run_get_postgres_async_db s k).1 = 1
      ∧ SessionEv.yielded (run_get_postgres_async_db s k).2.1
          ∈ (run_get_postgres_async_db s k).1
      ∧ (run_get_postgres_async_db s k).1.getLast?
          = some (SessionEv.closed (run_get_postgres_async_db s k).2.1)
      ∧ (run_get_postgres_async_db s k).2.2.1
          = (create_postgres_async_session_factory s).1
      ∧ (run_get_postgres_async_db s k).2.2.1.bind = (create_postgres_async_engine s).1)
    ∧ (countYields (run_get_postgres_async_shared_db s k).1 = 1
      ∧ SessionEv.yielded (run_get_postgres_async_shared_db s k).2.1
          ∈ (run_get_postgres_async_shared_db s k).1
      ∧ (run_get_postgres_async_shared_db s k).1.getLast?
          = some (SessionEv.closed (run_get_postgres_async_shared_db s k).2.1)
      ∧ (run_get_postgres_async_shared_db s k).2.2.1
          = (get_postgres_async_session_factory s).1
      ∧ (run_get_postgres_async_shared_db s k).2.2.1.bind
          = (get_postgres_async_engine s).1) := by
  refine ⟨⟨rfl, ?_, rfl, rfl, rfl⟩, ⟨rfl, ?_, rfl, rfl, rfl⟩⟩
  · simp [run_get_postgres_async_db]
  · simp [run_get_postgres_async_shared_db]

/-- C4 counterexample: the claim says ConfigContainer exposes exactly ten
category accessor methods; the source class exposes twelve, so the count is
not ten. -/
theorem C4_counterexample : ¬ (categoryAccessors emptyConsts).length = 10 := by
  decide

/-- C4 (amended): ConfigContainer exposes exactly twelve category accessor
methods — one per declared configuration category (twelve categories:
five import, seven script) — and each accessor calls the resolution collaborator
with that category's fixed declared entry set paired with the appropriate
cached file mapping (the import mapping for import categories, the script
mapping for script categories), returning the resolved list. -/
theorem C4_twelve_accessors_delegate (K : Constants) (cls : ClassAttrs) (c : ConfigContainer) :
    (categoryAccessors K).length = 12
    ∧ bhcf_imports K cls c
        = (create_config K.imports.BHCF (get_import_file_dict cls c K.directory.IMPORT).1,
           (get_import_file_dict cls c K.directory.IMPORT).2)
    ∧ attribute_imports K cls c
        = (create_config K.imports.ATTRIBUTES (get_import_file_dict cls c K.directory.IMPORT).1,
           (get_import_file_dict cls c K.directory.IMPORT).2)
    ∧ relationship_imports K cls c
        = (create_config K.imports.RELATIONSHIPS (get_import_file_dict cls c K.directory.IMPORT).1,
           (get_import_file_dict cls c K.directory.IMPORT).2)
    ∧ transformation_imports K cls c
        = (create_config K.imports.TRANSFORMATIONS (get_import_file_dict cls c K.directory.IMPORT).1,
           (get_import_file_dict cls c K.directory.IMPORT).2)
    ∧ gov_identifier_imports K cls c
        = (create_config K.imports.GOV_IDENTIFIERS (get_import_file_dict cls c K.directory.IMPORT).1,
           (get_import_file_dict cls c K.directory.IMPORT).2)
    ∧ preflight_scripts K cls c
        = (create_config K.script.PREFLIGHT (get_script_file_dict cls c K.directory.SCRIPTS).1,
           (get_script_file_dict cls c K.directory.SCRIPTS).2)
    ∧ dependency_scripts K cls c
        = (create_config K.script.DEPENDENCIES (get_script_file_dict cls c K.directory.SCRIPTS).1,
           (get_script_file_dict cls c K.directory.SCRIPTS).2)
    ∧ attribute_scripts K cls c
        = (create_config K.script.ATTRIBUTES (get_script_file_dict cls c K.directory.SCRIPTS).1,
           (get_script_file_dict cls c K.directory.SCRIPTS).2)
    ∧ relationship_scripts K cls c
        = (create_config K.script.RELATIONSHIPS (get_script_file_dict cls c K.directory.SCRIPTS).1,
           (get_script_file_dict cls c K.directory.SCRIPTS).2)
    ∧ transformation_scripts K cls c
        = (create_config K.script.TRANSFORMATIONS (get_script_file_dict cls c K.directory.SCRIPTS).1,
           (get_script_file_dict cls c K.directory.SCRIPTS).2)
    ∧ gov_identifier_scripts K cls c
        = (create_config K.script.GOV_IDENTIFIERS (get_script_file_dict cls c K.directory.SCRIPTS).1,
           (get_script_file_dict cls c K.directory.SCRIPTS).2)
    ∧ call_report_scripts K cls c
        = (create_config K.script.CALL_REPORTS (get_script_file_dict cls c K.directory.SCRIPTS).1,
           (get_script_file_dict cls c K.directory.SCRIPTS).2) :=
  ⟨rfl, rfl, rfl, rfl, rfl, rfl, rfl, rfl, rfl, rfl, rfl, rfl, rfl⟩

/-- C5: For every category accessor of ConfigContainer and every file
mapping, if some logical name declared for that category is absent from the
mapping the accessor uses (the cached mapping, or the one resolved on this
call), the accessor raises a lookup error; it never returns a list that
silently omits the missing entry. -/
theorem C5_missing_name_raises (K : Constants) (cls : ClassAttrs) (c : ConfigContainer)
    (n : String) :
    (n ∈ K.imports.BHCF →
      findPath (get_import_file_dict cls c K.directory.IMPORT).1 n = none →
      isError (bhcf_imports K cls c).1 = true)
    ∧ (n ∈ K.imports.ATTRIBUTES →
      findPath (get_import_file_dict cls c K.directory.IMPORT).1 n = none →
      isError (attribute_imports K cls c).1 = true)
    ∧ (n ∈ K.imports.RELATIONSHIPS →
      findPath (get_import_file_dict cls c K.directory.IMPORT).1 n = none →
      isError (relationship_imports K cls c).1 = true)
    ∧ (n ∈ K.imports.TRANSFORMATIONS →
      findPath (get_import_file_dict cls c K.directory.IMPORT).1 n = none →
      isError (transformation_imports K cls c).1 = true)
    ∧ (n ∈ K.imports.GOV_IDENTIFIERS →
      findPath (get_import_file_dict cls c K.directory.IMPORT).1 n = none →
      isError (gov_identifier_imports K cls c).1 = true)
    ∧ (n ∈ K.script.PREFLIGHT →
      findPath (get_script_file_dict cls c K.directory.SCRIPTS).1 n = none →
      isError (preflight_scripts K cls c).1 = true)
    ∧ (n ∈ K.script.DEPENDENCIES →
      findPath (get_script_file_dict cls c K.directory.SCRIPTS).1 n = none →
      isError (dependency_scripts K cls c).1 = true)
    ∧ (n ∈ K.script.ATTRIBUTES →
      findPath (get_script_file_dict cls c K.directory.SCRIPTS).1 n = none →
      isError (attribute_scripts K cls c).1 = true)
    ∧ (n ∈ K.script.RELATIONSHIPS →
      findPath (get_script_file_dict cls c K.directory.SCRIPTS).1 n = none →
      isError (relationship_scripts K cls c).1 = true)
    ∧ (n ∈ K.script.TRANSFORMATIONS →
      findPath (get_script_file_dict cls c K.directory.SCRIPTS).1 n = none →
      isError (transformation_scripts K cls c).1 = true)
    ∧ (n ∈ K.script.GOV_IDENTIFIERS →
      findPath (get_script_file_dict cls c K.directory.SCRIPTS).1 n = none →
      isError (gov_identifier_scripts K cls c).1 = true)
    ∧ (n ∈ K.script.CALL_REPORTS →
      findPath (get_script_file_dict cls c K.directory.SCRIPTS).1 n = none →
      isError (call_report_scripts K cls c).1 = true) :=
  ⟨fun h1 h2 => create_config_isError_of_missing h1 h2,
   fun h1 h2 => create_config_isError_of_missing h1 h2,
   fun h1 h2 => create_config_isError_of_missing h1 h2,
   fun h1 h2 => create_config_isError_of_missing h1 h2,
   fun h1 h2 => create_config_isError_of_missing h1 h2,
   fun h1 h2 => create_config_isError_of_missing h1 h2,
   fun h1 h2 => create_config_isError_of_missing h1 h2,
   fun h1 h2 => create_config_isError_of_missing h1 h2,
   fun h1 h2 => create_config_isError_of_missing h1 h2,
   fun h1 h2 => create_config_isError_of_missing h1 h2,
   fun h1 h2 => create_config_isError_of_missing h1 h2,
   fun h1 h2 => create_config_isError_of_missing h1 h2⟩

/-- C5 witness: with every category declaring the name `"a"` and a resolver
returning the empty mapping, the hypotheses hold concretely and all twelve
accessors raise a lookup error. -/
theorem C5_missing_name_raises_witness :
    ("a" ∈ witnessConsts.imports.BHCF
      ∧ findPath
          (get_import_file_dict defaultClassAttrs witnessContainer
            witnessConsts.directory.IMPORT).1 "a" = none
      ∧ "a" ∈ witnessConsts.script.PREFLIGHT
      ∧ findPath
          (get_script_file_dict defaultClassAttrs witnessContainer
            witnessConsts.directory.SCRIPTS).1 "a" = none)
    ∧ isError (bhcf_imports witnessConsts defaultClassAttrs witnessContainer).1 = true
    ∧ isError (attribute_imports witnessConsts defaultClassAttrs witnessContainer).1 = true
    ∧ isError (relationship_imports witnessConsts defaultClassAttrs witnessContainer).1 = true
    ∧ isError (transformation_imports witnessConsts defaultClassAttrs witnessContainer).1 = true
    ∧ isError (gov_identifier_imports witnessConsts defaultClassAttrs witnessContainer).1 = true
    ∧ isError (preflight_scripts witnessConsts defaultClassAttrs witnessContainer).1 = true
    ∧ isError (dependency_scripts witnessConsts defaultClassAttrs witnessContainer).1 = true
    ∧ isError (attribute_scripts witnessConsts defaultClassAttrs witnessContainer).1 = true
    ∧ isError (relationship_scripts witnessConsts defaultClassAttrs witnessContainer).1 = true
    ∧ isError (transformation_scripts witnessConsts defaultClassAttrs witnessContainer).1 = true
    ∧ isError (gov_identifier_scripts witnessConsts defaultClassAttrs witnessContainer).1 = true
    ∧ isError (call_report_scripts witnessConsts defaultClassAttrs witnessContainer).1 = true := by
  refine ⟨⟨by decide, by decide, by decide, by decide⟩, ?_, ?_, ?_, ?_, ?_, ?_, ?_, ?_, ?_, ?_,
    ?_, ?_⟩
  · exact (C5_missing_name_raises witnessConsts defaultClassAttrs witnessContainer "a").1
      (by decide) (by decide)
  · exact (C5_missing_name_raises witnessConsts defaultClassAttrs witnessContainer "a").2.1
      (by decide) (by decide)
  · exact (C5_missing_name_raises witnessConsts defaultClassAttrs witnessContainer "a").2.2.1
      (by decide) (by decide)
  · exact (C5_missing_name_raises witnessConsts defaultClassAttrs witnessContainer "a").2.2.2.1
      (by decide) (by decide)
  · exact (C5_missing_name_raises witnessConsts defaultClassAttrs witnessContainer "a").2.2.2.2.1
      (by decide) (by decide)
  · exact (C5_missing_name_raises witnessConsts defaultClassAttrs
      witnessContainer "a").2.2.2.2.2.1 (by decide) (by decide)
  · exact (C5_missing_name_raises witnessConsts defaultClassAttrs
      witnessContainer "a").2.2.2.2.2.2.1 (by decide) (by decide)
  · exact (C5_missing_name_raises witnessConsts defaultClassAttrs
      witnessContainer "a").2.2.2.2.2.2.2.1 (by decide) (by decide)
  · exact (C5_missing_name_raises witnessConsts defaultClassAttrs
      witnessContainer "a").2.2.2.2.2.2.2.2.1 (by decide) (by decide)
  · exact (C5_missing_name_raises witnessConsts defaultClassAttrs
      witnessContainer "a").2.2.2.2.2.2.2.2.2.1 (by decide) (by decide)
  · exact (C5_missing_name_raises witnessConsts defaultClassAttrs
      witnessContainer "a").2.2.2.2.2.2.2.2.2.2.1 (by decide) (by decide)
  · exact (C5_missing_name_raises witnessConsts defaultClassAttrs
      witnessContainer "a").2.2.2.2.2.2.2.2.2.2.2 (by decide) (by decide)

/-- C6: The two cached file mappings of a ConfigContainer are
instance-scoped.  For any method `op` of the class (this covers
`get_import_file_dict`, `get_script_file_dict` and every category accessor)
run on one of two instances, the other instance's state — in particular its
cached mappings — and the shared class-level attributes are unchanged.
Moreover two fresh instances never share a cached mapping: populating `a`
and then `b` makes each invoke its own resolver (log `[da]` resp. `[db]`)
and each receives its own resolver's result. -/
theorem C6_instance_scoped_caches {α : Type}
    (op : ClassAttrs → ConfigContainer → α × ConfigContainer × List String)
    (w : TwoWorld) (ha hb : String → FileDict) (da db : String) :
    ((runOnA op w).2.1.b = w.b
      ∧ (runOnA op w).2.1.cls = w.cls
      ∧ (runOnB op w).2.1.a = w.a
      ∧ (runOnB op w).2.1.cls = w.cls)
    ∧ ((runOnA (fun cl c => get_import_file_dict cl c da)
          ⟨defaultClassAttrs, mkConfigContainer ha, mkConfigContainer hb⟩).2.2 = [da]
      ∧ (runOnA (fun cl c => get_import_file_dict cl c da)
          ⟨defaultClassAttrs, mkConfigContainer ha, mkConfigContainer hb⟩).1 = ha da
      ∧ (runOnB (fun cl c => get_import_file_dict cl c db)
          (runOnA (fun cl c => get_import_file_dict cl c da)
            ⟨defaultClassAttrs, mkConfigContainer ha, mkConfigContainer hb⟩).2.1).2.2 = [db]
      ∧ (runOnB (fun cl c => get_import_file_dict cl c db)
          (runOnA (fun cl c => get_import_file_dict cl c da)
            ⟨defaultClassAttrs, mkConfigContainer ha, mkConfigContainer hb⟩).2.1).1 = hb db
      ∧ (runOnB (fun cl c => get_import_file_dict cl c db)
          (runOnA (fun cl c => get_import_file_dict cl c da)
            ⟨defaultClassAttrs, mkConfigContainer ha, mkConfigContainer hb⟩).2.1).2.1.a.import_attr
          = some (ha da)) :=
  ⟨⟨rfl, rfl, rfl, rfl⟩, ⟨rfl, rfl, rfl, rfl, rfl⟩⟩

/-- C7: `create_postgres_async_session_factory` returns a session factory
bound to a freshly created async engine (the engine a
`create_postgres_async_engine` call on the same state would produce, with a
newly allocated identity), and `get_postgres_async_session_factory` returns
a session factory bound to the singleton async engine (the engine cached in
the class state after the call); in both cases the factory is configured
with autoflush disabled and objects not expired on commit. -/
theorem C7_session_factory_binding_and_flags (s : SessionState) :
    ((create_postgres_async_session_factory s).1.bind = (create_postgres_async_engine s).1
      ∧ (create_postgres_async_session_factory s).1.bind.oid = s.next_oid
      ∧ (create_postgres_async_session_factory s).1.autoflush = false
      ∧ (create_postgres_async_session_factory s).1.expire_on_commit = false)
    ∧ ((get_postgres_async_session_factory s).1.bind = (get_postgres_async_engine s).1
      ∧ (get_postgres_async_session_factory s).2.postgres_async_engine
          = some (get_postgres_async_session_factory s).1.bind
      ∧ (get_postgres_async_session_factory s).1.autoflush = false
      ∧ (get_postgres_async_session_factory s).1.expire_on_commit = false) := by
  rcases s with ⟨pe, pae, c, n⟩
  refine ⟨⟨rfl, rfl, rfl, rfl⟩, ?_, ?_, rfl, rfl⟩
  · cases pae <;> rfl
  · cases pae <;> rfl

/-- C8 counterexample: for the schema name `transformations`, the statement
executed by `init_table_schema` is the lowercase
`create schema if not exists transformations;`, not the claim's uppercase
rendering `CREATE SCHEMA IF NOT EXISTS transformations;`. -/
theorem C8_counterexample :
    init_table_schema "transformations"
      ≠ [SqlEv.execStmt "CREATE SCHEMA IF NOT EXISTS transformations;", SqlEv.commitTx] := by
  decide

/-- C8 (amended): for every schema name, the schema-creation operation —
both `init_table_schema` and `SchemaContainer.create_transformation_schema`
(which delegates to `SchemaHandler.create_table_schema`) — executes exactly
the DDL statement `create schema if not exists <name>;` (with the given
name substituted; keywords in lowercase, case-insensitively identical to
the claim's `CREATE SCHEMA IF NOT EXISTS <name>;`) and commits it, against
a synchronous session. -/
theorem C8_schema_ddl_lowercase (schema : String) :
    init_table_schema schema
      = [SqlEv.execStmt ("create schema if not exists " ++ schema ++ ";"), SqlEv.commitTx]
    ∧ create_transformation_schema schema
      = [SqlEv.execStmt ("create schema if not exists " ++ schema ++ ";"), SqlEv.commitTx]
    ∧ create_transformation_schema schema = create_table_schema schema
    ∧ "CREATE SCHEMA IF NOT EXISTS ".data.map Char.toLower
      = "create schema if not exists ".data
    ∧ (init_table_schema schema).getLast? = some SqlEv.commitTx
    ∧ (create_transformation_schema schema).getLast? = some SqlEv.commitTx :=
  ⟨rfl, rfl, rfl, by decide, rfl, rfl⟩

/-- C9: The database connection URL is composed from the six process-wide
settings into the single string
`<driver>://<user>:<password>@<host>:<port>/<database name>` (stated by
`spec_connection_url`), and engine construction in `intit_engine` uses
exactly this URL. -/
theorem C9_connection_url_composition (s : Settings) (oid : Nat) :
    connection_string s
        = spec_connection_url s.db_driver s.db_usrnm s.db_pwd s.db_host s.db_port s.db_name
    ∧ (intit_engine s oid).url
        = spec_connection_url s.db_driver s.db_usrnm s.db_pwd s.db_host s.db_port s.db_name
    ∧ intit_engine s oid = sqlalchemy_create_engine (connection_string s) false oid :=
  ⟨rfl, rfl, rfl⟩

/-- C10: `get_postgres_async_session_factory` constructs and returns a new
session-factory object on every call — two sequential calls return distinct
factory objects — while only the underlying async engine is memoized: both
factories are bound to the same singleton engine, which is the one cached in
the class state. -/
theorem C10_factory_fresh_engine_memoized (s : SessionState) :
    (get_postgres_async_session_factory s).1
        ≠ (get_postgres_async_session_factory (get_postgres_async_session_factory s).2).1
    ∧ (get_postgres_async_session_factory s).1.bind
        = (get_postgres_async_session_factory (get_postgres_async_session_factory s).2).1.bind
    ∧ (get_postgres_async_session_factory s).2.postgres_async_engine
        = some (get_postgres_async_session_factory s).1.bind
    ∧ (get_postgres_async_session_factory (get_postgres_async_session_factory s).2).2.postgres_async_engine
        = some (get_postgres_async_session_factory s).1.bind := by
  rcases s with ⟨pe, pae, c, n⟩
  cases pae with
  | none =>
    refine ⟨?_, rfl, rfl, rfl⟩
    intro h
    have := congrArg SessionFactory.oid h
    simp [get_postgres_async_session_factory, get_postgres_async_engine,
      sqlalchemy_async_sessionmaker, sqlalchemy_create_engine] at this
  | some e =>
    refine ⟨?_, rfl, rfl, rfl⟩
    intro h
    have := congrArg SessionFactory.oid h
    simp [get_postgres_async_session_factory, get_postgres_async_engine,
      sqlalchemy_async_sessionmaker, sqlalchemy_create_engine] at this
